import Mathlib

/-!
Verification of the CloseGuard rule-evaluation engine
(`backend/services/rule_engine.py`, `backend/rules/*.py`,
`backend/models/flag.py`, `backend/services/analysis/scoring_service.py`,
and the legacy `backend/engine.py`).

The Python `re` module is treated as an external collaborator: a
`RegexEngine` is an oracle mapping a pattern string and a text to the list
of matches (`re.finditer`, case-insensitive) and to an optional DOTALL
search.  Each match carries its span and its capture group 1, exactly the
data the handlers consume.  Numbers are modelled as `ℚ` (Python floats);
numeric string rendering in messages is abstracted by `ratToString`, which
none of the verified claims depend on.
-/

namespace CloseGuard

/-! ## String primitives -/

/-- Boolean test that `p` is a prefix of `l` (over characters). -/
def hasPrefixL : List Char → List Char → Bool
  | _, [] => true
  | [], _ :: _ => false
  | c :: cs, d :: ds => c == d && hasPrefixL cs ds

/-- Boolean substring containment: Python's `nd in hay`. -/
def containsSubL : List Char → List Char → Bool
  | [], nd => nd.isEmpty
  | c :: t, nd => hasPrefixL (c :: t) nd || containsSubL t nd

/-- Python `needle in haystack` on strings. -/
def strContains (hay needle : String) : Bool :=
  containsSubL hay.toList needle.toList

/-- Python `str.strip()`: drop whitespace from both ends. -/
def strStrip (s : String) : String :=
  String.mk (((s.toList.dropWhile Char.isWhitespace).reverse.dropWhile
    Char.isWhitespace).reverse)

/-- Python `str.lower()` (character-wise; ASCII-faithful). -/
def strLower (s : String) : String := String.mk (s.toList.map Char.toLower)

/-- Python `str.upper()` (character-wise; ASCII-faithful). -/
def strUpper (s : String) : String := String.mk (s.toList.map Char.toUpper)

/-- Fuelled scan of Python `str.replace(old, new)` (all non-overlapping
occurrences, left to right); one unit of fuel per consumed character. -/
def replaceFuel (old new : List Char) : Nat → List Char → List Char
  | 0, s => s
  | _ + 1, [] => []
  | fuel + 1, s@(c :: rest) =>
    if !old.isEmpty && hasPrefixL s old then
      new ++ replaceFuel old new fuel (s.drop old.length)
    else c :: replaceFuel old new fuel rest

/-- Python `s.replace(old, new)` for the non-empty literals the engine
substitutes. -/
def strReplace (s old new : String) : String :=
  String.mk (replaceFuel old.toList new.toList s.toList.length s.toList)

/-- Python `', '.join(l)`. -/
def strIntercalate (sep : String) : List String → String
  | [] => ("")
  | [x] => x
  | x :: xs => x ++ sep ++ strIntercalate sep xs

/-- Python slice `text[a:b]` (clamped, character positions). -/
def strSlice (s : String) (a b : Nat) : String :=
  String.mk ((s.toList.drop a).take (b - a))

/-- `BaseRuleHandler.extract_snippet`: `text[max(0, start-k) : min(len, end+k)].strip()`. -/
def extractSnippet (text : String) (startPos endPos : Nat) (contextChars : Nat := 50) : String :=
  let a := startPos - contextChars
  let b := min text.toList.length (endPos + contextChars)
  strStrip (strSlice text a b)

/-- Python's `value_str.replace(',', '')` used before numeric parsing. -/
def stripCommas (s : String) : String :=
  String.mk (s.toList.filter (fun c => c ≠ ','))

/-- Digits of a decimal string folded to a natural number. -/
def digitsToNat (l : List Char) : Nat :=
  l.foldl (fun a c => a * 10 + (c.toNat - 48)) 0

/-- Syntactic part of Python `float(s)` on the strings the capture groups
produce: an optional sign, then digits with at most one decimal point and
at least one digit.  Anything else is a `ValueError`, modelled as `none`.
The result is (sign, all digits as a natural, number of fractional digits). -/
def parseDecimal (s : String) : Option (Int × Nat × Nat) :=
  let l := s.toList
  let sign : Int := if l.head? = some '-' then -1 else 1
  let body := if l.head? = some '-' ∨ l.head? = some '+' then l.drop 1 else l
  match body.splitOn '.' with
  | [ip] =>
      if ip ≠ [] ∧ ip.all Char.isDigit then some (sign, digitsToNat ip, 0) else none
  | [ip, fp] =>
      if (ip ≠ [] ∨ fp ≠ []) ∧ ip.all Char.isDigit ∧ fp.all Char.isDigit then
        some (sign, digitsToNat (ip ++ fp), fp.length)
      else none
  | _ => none

/-- Model of Python `float(s)`: the parsed decimal as a rational. -/
def parseFloat (s : String) : Option ℚ :=
  (parseDecimal s).map (fun t => (t.1 : ℚ) * (t.2.1 : ℚ) / ((10 : ℚ) ^ t.2.2))

/-- Rendering of a number in a substituted message; abstracts Python's
float `str()` (no verified claim depends on the exact digits). -/
def ratToString (q : ℚ) : String :=
  if q.den = 1 then toString q.num ++ (".0") else toString q.num ++ ("/") ++ toString q.den

/-- One `{key}` / `${key}` substitution step of `BaseRuleHandler.format_message`
for a numeric value (the source replaces the plain placeholder first,
then the dollar form). -/
def formatNumArg (msg key valStr : String) : String :=
  strReplace (strReplace msg ("\x7b" ++ key ++ "\x7d") valStr)
    ("$\x7b" ++ key ++ "\x7d") ("$" ++ valStr)

/-- One `{key}` substitution step of `format_message` for a string value. -/
def formatStrArg (msg key val : String) : String :=
  strReplace msg ("\x7b" ++ key ++ "\x7d") val

/-! ## Regex oracle -/

/-- The data of one `re` match object that the handlers consume: the span
(`match.start()`, `match.end()`) and capture group 1 (`none` models a
pattern without group 1, whose access raises `IndexError`). -/
structure MatchData where
  start : Nat
  stop : Nat
  group1 : Option String
  deriving Repr, DecidableEq

/-- Oracle for the `re` module on successfully compiled patterns:
`finditer pattern text` is `re.finditer(pattern, text, re.IGNORECASE)`,
`searchDotall` is `re.search(..., re.IGNORECASE | re.DOTALL)`. -/
structure RegexEngine where
  finditer : String → String → List MatchData
  searchDotall : String → String → Option MatchData

/-- `re.search(pattern, text, re.IGNORECASE)`: the first `finditer` match. -/
def RegexEngine.search (e : RegexEngine) (pattern text : String) : Option MatchData :=
  (e.finditer pattern text).head?

/-! ## Flags and severity (`models/flag.py`) -/

inductive FlagSeverity where
  | high
  | medium
  | low
  deriving Repr, DecidableEq

/-- High-severity keywords of `Flag._determine_severity`. -/
def highSeverityKeywords : List String := ["🚨", "critical", "error", "fraud"]

/-- Medium-severity keywords of `Flag._determine_severity`. -/
def mediumSeverityKeywords : List String := ["⚠️", "warning", "dangerous", "excessive"]

/-- `Flag._determine_severity`: keyword scan over the lowercased message,
HIGH before MEDIUM before LOW. -/
def determineSeverity (message : String) : FlagSeverity :=
  let messageLower := strLower message
  if highSeverityKeywords.any (fun k => strContains messageLower k) then
    FlagSeverity.high
  else if mediumSeverityKeywords.any (fun k => strContains messageLower k) then
    FlagSeverity.medium
  else
    FlagSeverity.low

structure Flag where
  rule : String
  message : String
  snippet : String
  severity : FlagSeverity
  deriving Repr, DecidableEq

/-- Construction of a `Flag` as every handler does it (severity left to
`__post_init__`, hence derived from the message). -/
def mkFlag (rule message snippet : String) : Flag :=
  { rule := rule, message := message, snippet := snippet,
    severity := determineSeverity message }

/-! ## Rules and user context (`models/rule.py`, `models/core/user_context.py`) -/

inductive RuleType where
  | numericThreshold
  | calculatedPercentage
  | regexPresence
  | regexAbsence
  | regexAmount
  | compoundRule
  | crossReferencePattern
  | contextComparison
  deriving Repr, DecidableEq

/-- One sub-condition dict of a `compound_rule` (`config['conditions']`),
with the `.get` defaults of `CompoundRuleHandler`. -/
structure Condition where
  condType : String := ""
  pattern : String := ""
  threshold : ℚ := 0
  operator : String := (">")
  deriving Repr

/-- One entry of `secondary_patterns` of a `cross_reference_pattern` rule. -/
structure SecondaryPattern where
  pattern : String := ""
  service : String := ("service")
  deriving Repr

/-- The `Rule` dataclass plus the `config`-dict fields the handlers read
(`conditions`, `logic`, `primary_pattern`, `reference_pattern`,
`secondary_patterns`, `fuzzy_match`, `comparison_type`, `promise_type`,
`tolerance_percent`); defaults are the source's `.get` defaults. -/
structure Rule where
  name : String
  ruleType : RuleType
  message : String
  enabled : Bool := true
  priority : Int := 1
  pattern : Option String := none
  threshold : Option ℚ := none
  operator : Option String := none
  numeratorPattern : Option String := none
  denominatorPattern : Option String := none
  conditions : List Condition := []
  logic : String := ("AND")
  primaryPattern : String := ""
  referencePattern : String := ""
  secondaryPatterns : List SecondaryPattern := []
  fuzzyMatch : Bool := true
  comparisonType : String := ""
  promiseType : String := ""
  chargeType : String := ""
  tolerancePercent : ℚ := 5
  deriving Repr

/-- The fields of `UserContext` the rule handlers read (the remaining
fields of the dataclass are never consumed by the engine). -/
structure UserContext where
  expectedPurchasePrice : Option ℚ := none
  expectedLoanAmount : Option ℚ := none
  promisedZeroClosingCosts : Bool := false
  usedBuildersPreferredLender : Bool := false
  builderName : Option String := none
  builderPromisedToCoverTitleFees : Bool := false
  builderPromisedToCoverEscrowFees : Bool := false
  deriving Repr

/-- Python truthiness of an optional pattern string: `if not rule.pattern`. -/
def patOk : Option String → Bool
  | none => false
  | some s => !s.isEmpty

/-- Python `rule.operator or '>'` (both `None` and `''` fall back). -/
def opOrGt : Option String → String
  | none => (">")
  | some s => if s.isEmpty then (">") else s

/-- Parse of capture group 1 after comma stripping, as every numeric
handler does it; `none` models `IndexError` (no group) or `ValueError`. -/
def parsedGroup (m : MatchData) : Option ℚ :=
  match m.group1 with
  | none => none
  | some s => parseFloat (stripCommas s)

/-- `round(percentage, 2)`; abstracts Python's tie-breaking (no verified
claim depends on the rendered digits). -/
def round2 (q : ℚ) : ℚ := ((round (q * 100) : ℤ) : ℚ) / 100

/-! ## Numeric rule handlers (`rules/numeric_rules.py`) -/

namespace NumericRules

/-- `NumericThresholdHandler._evaluate_condition`. -/
def evaluateCondition (value threshold : ℚ) (operator : String) : Bool :=
  if operator = (">") then decide (value > threshold)
  else if operator = ("<") then decide (value < threshold)
  else if operator = (">=") then decide (value ≥ threshold)
  else if operator = ("<=") then decide (value ≤ threshold)
  else if operator = ("==") then decide (value = threshold)
  else decide (value > threshold)  -- Default to greater than

/-- `NumericThresholdHandler._check_numeric_threshold`: scan all matches,
flag each whose parsed capture satisfies the threshold condition; parse
and group failures skip the match. -/
def checkNumericThreshold (engine : RegexEngine) (rule : Rule) (text : String) : List Flag :=
  match rule.pattern, rule.threshold with
  | some p, some threshold =>
    if p.isEmpty then []
    else
      (engine.finditer p text).filterMap (fun m =>
        match m.group1 with
        | none => none
        | some g =>
          let valueStr := stripCommas g
          match parseFloat valueStr with
          | none => none
          | some value =>
            if evaluateCondition value threshold (opOrGt rule.operator) then
              some (mkFlag rule.name
                (formatStrArg (formatNumArg rule.message ("value") (ratToString value))
                  ("value_str") valueStr)
                (extractSnippet text m.start m.stop))
            else none)
  | _, _ => []

/-- `NumericThresholdHandler._check_calculated_percentage`: first match of
each of numerator and denominator pattern; zero denominator produces no
flag; group/parse failures are the caught `ValueError`/`IndexError`. -/
def checkCalculatedPercentage (engine : RegexEngine) (rule : Rule) (text : String) : List Flag :=
  match rule.numeratorPattern, rule.denominatorPattern, rule.threshold with
  | some np, some dp, some threshold =>
    if np.isEmpty || dp.isEmpty then []
    else
      match engine.search np text with
      | none => []
      | some nm =>
        match nm.group1 with
        | none => []
        | some ng =>
          let numeratorStr := stripCommas ng
          match parseFloat numeratorStr with
          | none => []
          | some numerator =>
            match engine.search dp text with
            | none => []
            | some dm =>
              match dm.group1 with
              | none => []
              | some dg =>
                let denominatorStr := stripCommas dg
                match parseFloat denominatorStr with
                | none => []
                | some denominator =>
                  if denominator = 0 then []
                  else
                    let percentage := numerator / denominator * 100
                    if evaluateCondition percentage threshold (opOrGt rule.operator) then
                      [mkFlag rule.name
                        (formatNumArg
                          (formatNumArg
                            (formatNumArg rule.message ("percentage") (ratToString (round2 percentage)))
                            ("numerator") (ratToString numerator))
                          ("denominator") (ratToString denominator))
                        (extractSnippet text nm.start nm.stop)]
                    else []
  | _, _, _ => []

end NumericRules

/-! ## Regex rule handlers (`rules/regex_rules.py`) -/

namespace RegexRules

/-- `RegexPresenceHandler.process_rule` (IGNORECASE | DOTALL search). -/
def checkRegexPresence (engine : RegexEngine) (rule : Rule) (text : String) : List Flag :=
  match rule.pattern with
  | none => []
  | some p =>
    if p.isEmpty then []
    else
      match engine.searchDotall p text with
      | none => []
      | some m => [mkFlag rule.name rule.message (extractSnippet text m.start m.stop)]

/-- `RegexAbsenceHandler.process_rule`. -/
def checkRegexAbsence (engine : RegexEngine) (rule : Rule) (text : String) : List Flag :=
  match rule.pattern with
  | none => []
  | some p =>
    if p.isEmpty then []
    else
      match engine.search p text with
      | some _ => []
      | none => [mkFlag rule.name rule.message ("Pattern not found in document")]

/-- `RegexAmountHandler._evaluate_condition` (same text as the numeric one). -/
def evaluateCondition (value threshold : ℚ) (operator : String) : Bool :=
  if operator = (">") then decide (value > threshold)
  else if operator = ("<") then decide (value < threshold)
  else if operator = (">=") then decide (value ≥ threshold)
  else if operator = ("<=") then decide (value ≤ threshold)
  else if operator = ("==") then decide (value = threshold)
  else decide (value > threshold)  -- Default to greater than

/-- `RegexAmountHandler.process_rule`. -/
def checkRegexAmount (engine : RegexEngine) (rule : Rule) (text : String) : List Flag :=
  match rule.pattern, rule.threshold with
  | some p, some threshold =>
    if p.isEmpty then []
    else
      (engine.finditer p text).filterMap (fun m =>
        match m.group1 with
        | none => none
        | some g =>
          let valueStr := stripCommas g
          match parseFloat valueStr with
          | none => none
          | some value =>
            if evaluateCondition value threshold (opOrGt rule.operator) then
              some (mkFlag rule.name
                (formatNumArg rule.message ("value") (ratToString value))
                (extractSnippet text m.start m.stop))
            else none)
  | _, _ => []

end RegexRules

/-! ## Compound rule handler (`rules/compound_rules.py`) -/

namespace CompoundRules

/-- `CompoundRuleHandler._evaluate_numeric_condition`. -/
def evaluateNumericCondition (value threshold : ℚ) (operator : String) : Bool :=
  if operator = (">") then decide (value > threshold)
  else if operator = ("<") then decide (value < threshold)
  else if operator = (">=") then decide (value ≥ threshold)
  else if operator = ("<=") then decide (value ≤ threshold)
  else if operator = ("==") then decide (value = threshold)
  else decide (value > threshold)

/-- `CompoundRuleHandler._check_regex_presence` (match info is the span). -/
def checkConditionPresence (engine : RegexEngine) (c : Condition) (text : String) :
    Bool × Option (Nat × Nat) :=
  match engine.searchDotall c.pattern text with
  | some m => (true, some (m.start, m.stop))
  | none => (false, none)

/-- `CompoundRuleHandler._check_regex_absence` (never yields match info). -/
def checkConditionAbsence (engine : RegexEngine) (c : Condition) (text : String) :
    Bool × Option (Nat × Nat) :=
  ((engine.search c.pattern text).isNone, none)

/-- `CompoundRuleHandler._check_numeric_threshold`: first match only; no
match, missing group or parse failure count as not satisfied. -/
def checkConditionNumeric (engine : RegexEngine) (c : Condition) (text : String) :
    Bool × Option (Nat × Nat) :=
  match engine.search c.pattern text with
  | none => (false, none)
  | some m =>
    match m.group1 with
    | none => (false, none)
    | some g =>
      match parseFloat (stripCommas g) with
      | none => (false, none)
      | some value =>
        if evaluateNumericCondition value c.threshold c.operator then
          (true, some (m.start, m.stop))
        else (false, none)

/-- `CompoundRuleHandler._evaluate_condition`: dispatch on the condition
`type`; unknown types are not satisfied. -/
def evaluateCondition (engine : RegexEngine) (c : Condition) (text : String) :
    Bool × Option (Nat × Nat) :=
  if c.condType = ("regex_presence") then checkConditionPresence engine c text
  else if c.condType = ("regex_absence") then checkConditionAbsence engine c text
  else if c.condType = ("numeric_threshold") then checkConditionNumeric engine c text
  else (false, none)

/-- One iteration of the condition loop: record the result, keep the first
match info of a satisfied condition (`if result and match_info is None`). -/
def conditionStep (engine : RegexEngine) (text : String)
    (acc : List Bool × Option (Nat × Nat)) (c : Condition) :
    List Bool × Option (Nat × Nat) :=
  let r := evaluateCondition engine c text
  (acc.1 ++ [r.1],
   match acc.2 with
   | some x => some x
   | none => if r.1 then r.2 else none)

/-- `CompoundRuleHandler.process_rule`: evaluate every condition, combine
with `AND`/`OR` logic, emit one flag on success. -/
def processRule (engine : RegexEngine) (rule : Rule) (text : String) : List Flag :=
  if rule.conditions.isEmpty then []
  else
    let st := rule.conditions.foldl (conditionStep engine text) ([], none)
    let conditionsMet :=
      if strUpper rule.logic = ("AND") then st.1.all id else st.1.any id
    if conditionsMet then
      let snippet :=
        match st.2 with
        | some se => extractSnippet text se.1 se.2
        | none => ("Multiple conditions met")
      [mkFlag rule.name rule.message snippet]
    else []

end CompoundRules

/-! ## Modular cross-reference handler (`rules/compound_rules.py`,
`CrossReferencePatternHandler`): both patterns present means a flag. -/

namespace CrossReferenceRules

/-- `CrossReferencePatternHandler.process_rule`. -/
def processRule (engine : RegexEngine) (rule : Rule) (text : String) : List Flag :=
  if rule.primaryPattern.isEmpty || rule.referencePattern.isEmpty then []
  else
    match engine.search rule.primaryPattern text with
    | none => []
    | some pm =>
      match engine.search rule.referencePattern text with
      | none => []
      | some _ => [mkFlag rule.name rule.message (extractSnippet text pm.start pm.stop)]

end CrossReferenceRules

/-! ## Context comparison handler (`rules/context_rules.py`) -/

namespace ContextRules

/-- Default pattern of `_check_price_mismatch` (`config.get('pattern', ...)`). -/
def defaultPricePattern : String :=
  "(?:Sale Price|Purchase Price).*?\\$([0-9,]+(?:\\.[0-9]{2})?)"

/-- Default pattern of `_check_loan_amount_mismatch`. -/
def defaultLoanPattern : String :=
  "Loan Amount.*?\\$([0-9,]+(?:\\.[0-9]{2})?)"

/-- Hard-coded pattern of `_check_zero_closing_costs_promise`. -/
def zeroClosingCostsPattern : String :=
  "(?:Total Closing Costs|closing costs?).*?\\$([0-9,]+(?:\\.[0-9]{2})?)"

/-- Hard-coded pattern of `_check_title_fees_promise`. -/
def titleFeesPattern : String :=
  "(?:Owner.*?Title Insurance|Title.*?Policy).*?\\$([0-9,]+(?:\\.[0-9]{2})?)"

/-- Hard-coded pattern of `_check_escrow_fees_promise`. -/
def escrowFeesPattern : String :=
  "(?:Escrow|Settlement).*?Fee.*?\\$([0-9,]+(?:\\.[0-9]{2})?)"

/-- `_check_price_mismatch`: flag when the extracted price differs from
the expectation by more than the tolerance percentage.  A `0` or missing
expectation is falsy in the source and yields no flag. -/
def checkPriceMismatch (engine : RegexEngine) (rule : Rule) (text : String)
    (ctx : UserContext) : List Flag :=
  match ctx.expectedPurchasePrice with
  | none => []
  | some expectedPrice =>
    if expectedPrice = 0 then []
    else
      let pattern := rule.pattern.getD defaultPricePattern
      match engine.search pattern text with
      | none => []
      | some m =>
        match m.group1 with
        | none => []
        | some g =>
          match parseFloat (stripCommas g) with
          | none => []
          | some documentPrice =>
            let diffPercent := |documentPrice - expectedPrice| / expectedPrice * 100
            if diffPercent > rule.tolerancePercent then
              [mkFlag rule.name
                (formatNumArg
                  (formatNumArg
                    (formatNumArg rule.message ("document_price") (ratToString documentPrice))
                    ("expected_price") (ratToString expectedPrice))
                  ("difference") (ratToString |documentPrice - expectedPrice|))
                (extractSnippet text m.start m.stop)]
            else []

/-- `_check_loan_amount_mismatch` (same shape as the price check). -/
def checkLoanAmountMismatch (engine : RegexEngine) (rule : Rule) (text : String)
    (ctx : UserContext) : List Flag :=
  match ctx.expectedLoanAmount with
  | none => []
  | some expectedAmount =>
    if expectedAmount = 0 then []
    else
      let pattern := rule.pattern.getD defaultLoanPattern
      match engine.search pattern text with
      | none => []
      | some m =>
        match m.group1 with
        | none => []
        | some g =>
          match parseFloat (stripCommas g) with
          | none => []
          | some documentAmount =>
            let diffPercent := |documentAmount - expectedAmount| / expectedAmount * 100
            if diffPercent > rule.tolerancePercent then
              [mkFlag rule.name
                (formatNumArg
                  (formatNumArg
                    (formatNumArg rule.message ("document_amount") (ratToString documentAmount))
                    ("expected_amount") (ratToString expectedAmount))
                  ("difference") (ratToString |documentAmount - expectedAmount|))
                (extractSnippet text m.start m.stop)]
            else []

/-- `_check_zero_closing_costs_promise`: the first closing-costs match
whose amount exceeds the absolute floor `100` produces the flag
("Allow small fees but not significant costs"). -/
def checkZeroClosingCostsPromise (engine : RegexEngine) (rule : Rule) (text : String) :
    List Flag :=
  match engine.search zeroClosingCostsPattern text with
  | none => []
  | some m =>
    match m.group1 with
    | none => []
    | some g =>
      match parseFloat (stripCommas g) with
      | none => []
      | some amount =>
        if amount > 100 then
          [mkFlag rule.name
            (formatNumArg rule.message ("amount") (ratToString amount))
            (extractSnippet text m.start m.stop)]
        else []

/-- `_check_title_fees_promise`: any title-fee charge breaks the promise. -/
def checkTitleFeesPromise (engine : RegexEngine) (rule : Rule) (text : String) : List Flag :=
  match engine.search titleFeesPattern text with
  | none => []
  | some m => [mkFlag rule.name rule.message (extractSnippet text m.start m.stop)]

/-- `_check_escrow_fees_promise`. -/
def checkEscrowFeesPromise (engine : RegexEngine) (rule : Rule) (text : String) : List Flag :=
  match engine.search escrowFeesPattern text with
  | none => []
  | some m => [mkFlag rule.name rule.message (extractSnippet text m.start m.stop)]

/-- `_check_broken_promise`: dispatch on `promise_type`, guarded by the
corresponding context field. -/
def checkBrokenPromise (engine : RegexEngine) (rule : Rule) (text : String)
    (ctx : UserContext) : List Flag :=
  if rule.promiseType = ("zero_closing_costs") ∧ ctx.promisedZeroClosingCosts = true then
    checkZeroClosingCostsPromise engine rule text
  else if rule.promiseType = ("title_fees") ∧ ctx.builderPromisedToCoverTitleFees = true then
    checkTitleFeesPromise engine rule text
  else if rule.promiseType = ("escrow_fees") ∧ ctx.builderPromisedToCoverEscrowFees = true then
    checkEscrowFeesPromise engine rule text
  else []

/-- `_check_unexpected_charge`. -/
def checkUnexpectedCharge (engine : RegexEngine) (rule : Rule) (text : String)
    (_ctx : UserContext) : List Flag :=
  let pattern := rule.pattern.getD ""
  if pattern.isEmpty then []
  else
    match engine.search pattern text with
    | none => []
    | some m => [mkFlag rule.name rule.message (extractSnippet text m.start m.stop)]

/-- `ContextComparisonHandler.process_rule`: nothing without a context;
dispatch on `comparison_type`. -/
def processRule (engine : RegexEngine) (rule : Rule) (text : String)
    (ctx : Option UserContext) : List Flag :=
  match ctx with
  | none => []
  | some c =>
    if rule.comparisonType = ("price_mismatch") then checkPriceMismatch engine rule text c
    else if rule.comparisonType = ("loan_amount_mismatch") then
      checkLoanAmountMismatch engine rule text c
    else if rule.comparisonType = ("broken_promise") then checkBrokenPromise engine rule text c
    else if rule.comparisonType = ("unexpected_charge") then
      checkUnexpectedCharge engine rule text c
    else []

end ContextRules

/-! ## Orchestrator (`services/rule_engine.py`, `RuleEngineService`) -/

namespace RuleEngineService

/-- `_get_handler_for_rule` followed by `handler.process_rule`: the
handler list partitions the rule types exactly, so the first-capable
lookup is a total dispatch on `rule_type`. -/
def processRule (engine : RegexEngine) (rule : Rule) (text : String)
    (ctx : Option UserContext) : List Flag :=
  match rule.ruleType with
  | RuleType.numericThreshold => NumericRules.checkNumericThreshold engine rule text
  | RuleType.calculatedPercentage => NumericRules.checkCalculatedPercentage engine rule text
  | RuleType.regexPresence => RegexRules.checkRegexPresence engine rule text
  | RuleType.regexAbsence => RegexRules.checkRegexAbsence engine rule text
  | RuleType.regexAmount => RegexRules.checkRegexAmount engine rule text
  | RuleType.compoundRule => CompoundRules.processRule engine rule text
  | RuleType.crossReferencePattern => CrossReferenceRules.processRule engine rule text
  | RuleType.contextComparison => ContextRules.processRule engine rule text ctx

/-- One iteration of the `analyze_text` loop.  The accumulator carries the
flag list and the `flagged_rules` set; an evaluator exception (`.error`)
is caught and leaves the state unchanged; only the first candidate flag of
a rule is kept and its name recorded. -/
def analyzeStep (ev : Rule → String → Option UserContext → Except String (List Flag))
    (text : String) (ctx : Option UserContext)
    (acc : List Flag × List String) (rule : Rule) : List Flag × List String :=
  if acc.2.contains rule.name then acc
  else
    match ev rule text ctx with
    | Except.error _ => acc
    | Except.ok [] => acc
    | Except.ok (f :: _) => (acc.1 ++ [f], rule.name :: acc.2)

/-- The `analyze_text` loop over an arbitrary per-rule evaluator. -/
def analyzeCore (ev : Rule → String → Option UserContext → Except String (List Flag))
    (rules : List Rule) (text : String) (ctx : Option UserContext) : List Flag :=
  (rules.foldl (analyzeStep ev text ctx) ([], [])).1

/-- `RuleEngineService.analyze_text`: enabled rules
(`rules_loader.get_enabled_rules`) run through the loop with the concrete
handler dispatch (which never raises in this model: every per-match
`ValueError`/`IndexError` is caught inside the handlers themselves). -/
def analyzeText (engine : RegexEngine) (rules : List Rule) (text : String)
    (ctx : Option UserContext) : List Flag :=
  analyzeCore (fun r t c => Except.ok (processRule engine r t c))
    (rules.filter (fun r => r.enabled)) text ctx

end RuleEngineService

/-! ## Scoring (`services/analysis/scoring_service.py`) -/

namespace ScoringService

/-- The default `severity_weights` dict of `ScoringService.__init__`. -/
def defaultSeverityWeights : FlagSeverity → ℤ
  | FlagSeverity.high => 20
  | FlagSeverity.medium => 10
  | FlagSeverity.low => 5

/-- `ScoringService.calculate_forensic_score`: perfect score for no flags,
otherwise the configured maximum minus the summed per-severity weights,
floored at `0`.  A flag's severity is always set after construction, so
the `if flag.severity` guard always passes. -/
def calculateForensicScore (maxScore : ℤ) (weights : FlagSeverity → ℤ)
    (flags : List Flag) : ℤ :=
  if flags.isEmpty then maxScore
  else
    let totalDeductions := flags.foldl (fun acc f => acc + weights f.severity) 0
    max 0 (maxScore - totalDeductions)

end ScoringService

/-! ## Legacy engine cross-reference evaluator (`engine.py`,
`RuleEngine._check_cross_reference_pattern`) — the fuzzy company-name
correlation. -/

namespace Engine

/-- A legacy flag dict `{'rule', 'message', 'snippet'}`. -/
structure LegacyFlag where
  rule : String
  message : String
  snippet : String
  deriving Repr, DecidableEq

/-- Maximal runs of characters satisfying `p` (accumulator-reversed). -/
def runsBy (p : Char → Bool) : List Char → List Char → List (List Char)
  | [], acc => if acc.isEmpty then [] else [acc.reverse]
  | c :: rest, acc =>
    if p c then runsBy p rest (c :: acc)
    else if acc.isEmpty then runsBy p rest []
    else acc.reverse :: runsBy p rest []

/-- Python `\w` on the ASCII range. -/
def isWordChar (c : Char) : Bool := c.isAlphanum || c == '_'

/-- `re.findall(r'\b[A-Z]{2,}\b', s)`: the maximal word-character runs
that consist only of capital letters and have length at least 2. -/
def capsTokens (s : String) : List String :=
  ((runsBy isWordChar s.toList []).filter
    (fun r => 2 ≤ r.length && r.all (fun c => 65 ≤ c.toNat && c.toNat ≤ 90))).map
    (fun r => String.mk r)

/-- Python `s.split()`: whitespace-separated words. -/
def splitWhitespace (s : String) : List String :=
  ((runsBy (fun c => !c.isWhitespace) s.toList []).filter (fun r => !r.isEmpty)).map
    (fun r => String.mk r)

/-- The fuzzy keyword set of `_check_cross_reference_pattern`: all-caps
tokens of length ≥ 2, else the fallback of all words longer than two
characters (the source's `set(...)` only ever feeds membership tests, so a
list is an adequate model). -/
def deriveKeywords (primaryValue : String) : List String :=
  let caps := capsTokens primaryValue
  if caps.isEmpty then
    ((splitWhitespace primaryValue).filter (fun w => 2 < w.toList.length)).map
      (fun w => strUpper w)
  else caps

/-- The `for secondary_info in secondary_patterns` loop: collect the
`service` labels of the secondary patterns whose captured value matches
(fuzzily: some keyword is a substring; exactly: string equality).  A
matched pattern without capture group 1 raises `IndexError`. -/
def crossrefSecondaries (engine : RegexEngine) (fuzzy : Bool) (keywords : List String)
    (primaryValue text : String) : List SecondaryPattern → Except String (List String)
  | [] => Except.ok []
  | sp :: rest =>
    match engine.search sp.pattern text with
    | none => crossrefSecondaries engine fuzzy keywords primaryValue text rest
    | some m =>
      match m.group1 with
      | none => Except.error ("IndexError")
      | some g =>
        let secondaryValue := strUpper (strStrip g)
        let matchFound :=
          if fuzzy then keywords.any (fun k => strContains secondaryValue k)
          else primaryValue == secondaryValue
        match crossrefSecondaries engine fuzzy keywords primaryValue text rest with
        | Except.error e => Except.error e
        | Except.ok services =>
          Except.ok (if matchFound then sp.service :: services else services)

/-- `RuleEngine._check_cross_reference_pattern`: extract the primary value
(trimmed, upper-cased), derive the fuzzy keywords, collect matched
services, and emit one flag when any service matched.  `.error` models the
`IndexError` of a capture-less pattern, caught by `check_text`. -/
def checkCrossReferencePattern (engine : RegexEngine) (rule : Rule) (text : String) :
    Except String (List LegacyFlag) :=
  match engine.search rule.primaryPattern text with
  | none => Except.ok []
  | some pm =>
    match pm.group1 with
    | none => Except.error ("IndexError")
    | some g =>
      let primaryValue := strUpper (strStrip g)
      let primaryKeywords := deriveKeywords primaryValue
      match crossrefSecondaries engine rule.fuzzyMatch primaryKeywords primaryValue text
          rule.secondaryPatterns with
      | Except.error e => Except.error e
      | Except.ok matchedServices =>
        if matchedServices.isEmpty then Except.ok []
        else
          let servicesText := strIntercalate (", ") matchedServices
          Except.ok [LegacyFlag.mk rule.name
            (formatStrArg (formatStrArg rule.message ("primary") primaryValue)
              ("services") servicesText)
            (("Primary: ") ++ primaryValue ++ (" | Matched services: ") ++ servicesText)]

end Engine

/-! ## Concrete regex oracles used to exercise the definitions -/

/-- An oracle answering each pattern of the association list with its
match (and nothing else); models one concrete document. -/
def engineOfList (l : List (String × MatchData)) : RegexEngine :=
  { finditer := fun p _ => (l.filter (fun e => e.1 == p)).map (fun e => e.2),
    searchDotall := fun p _ =>
      (((l.filter (fun e => e.1 == p)).map (fun e => e.2)).head?) }

/-! # Theorems -/

/-! ## Substring-test correspondence -/

theorem hasPrefixL_iff (p l : List Char) : hasPrefixL l p = true ↔ p <+: l := by
  induction p generalizing l with
  | nil => simp [hasPrefixL]
  | cons d ds ih =>
    cases l with
    | nil => simp [hasPrefixL]
    | cons c cs =>
      rw [show hasPrefixL (c :: cs) (d :: ds) = (c == d && hasPrefixL cs ds) from rfl,
        Bool.and_eq_true, beq_iff_eq, ih, List.cons_prefix_cons]
      exact ⟨fun hp => ⟨hp.1.symm, hp.2⟩, fun hp => ⟨hp.1.symm, hp.2⟩⟩

theorem containsSubL_iff (hay nd : List Char) :
    containsSubL hay nd = true ↔ nd <:+: hay := by
  induction hay with
  | nil => simp [containsSubL, List.isEmpty_iff, List.infix_nil]
  | cons c t ih =>
    rw [show containsSubL (c :: t) nd = (hasPrefixL (c :: t) nd || containsSubL t nd)
      from rfl]
    rw [Bool.or_eq_true, hasPrefixL_iff, ih, List.infix_cons_iff]

theorem strContains_iff (hay nd : String) :
    strContains hay nd = true ↔ nd.toList <:+: hay.toList := by
  simpa [strContains] using containsSubL_iff hay.toList nd.toList

/-! ## C9: severity from message keywords -/

/-- C9: a flag's severity is derived from the rendered message alone,
case-insensitively: HIGH when any high keyword (or the high emoji marker)
occurs as a substring of the lowercased message, else MEDIUM when any
medium keyword occurs, else LOW — the tiers checked in that order. -/
theorem severity_from_message_keywords (rule msg snippet : String) :
    ((mkFlag rule msg snippet).severity = FlagSeverity.high ↔
      ∃ k ∈ highSeverityKeywords, k.toList <:+: (strLower msg).toList) ∧
    ((mkFlag rule msg snippet).severity = FlagSeverity.medium ↔
      (¬ ∃ k ∈ highSeverityKeywords, k.toList <:+: (strLower msg).toList) ∧
      ∃ k ∈ mediumSeverityKeywords, k.toList <:+: (strLower msg).toList) ∧
    ((mkFlag rule msg snippet).severity = FlagSeverity.low ↔
      (¬ ∃ k ∈ highSeverityKeywords, k.toList <:+: (strLower msg).toList) ∧
      ¬ ∃ k ∈ mediumSeverityKeywords, k.toList <:+: (strLower msg).toList) := by
  have hchar : ∀ ks : List String,
      (ks.any (fun k => strContains (strLower msg) k) = true) ↔
      ∃ k ∈ ks, k.toList <:+: (strLower msg).toList := by
    intro ks
    simp only [List.any_eq_true, strContains_iff]
  by_cases hh : highSeverityKeywords.any (fun k => strContains (strLower msg) k) = true
  · have hH := (hchar highSeverityKeywords).mp hh
    have hs : (mkFlag rule msg snippet).severity = FlagSeverity.high := by
      simp [mkFlag, determineSeverity, hh]
    exact ⟨iff_of_true hs hH,
      iff_of_false (by simp [hs]) (fun hc => hc.1 hH),
      iff_of_false (by simp [hs]) (fun hc => hc.1 hH)⟩
  · by_cases hm : mediumSeverityKeywords.any (fun k => strContains (strLower msg) k) = true
    · have hM := (hchar mediumSeverityKeywords).mp hm
      have hnH : ¬ ∃ k ∈ highSeverityKeywords, k.toList <:+: (strLower msg).toList :=
        fun hc => hh ((hchar highSeverityKeywords).mpr hc)
      have hs : (mkFlag rule msg snippet).severity = FlagSeverity.medium := by
        simp [mkFlag, determineSeverity, hh, hm]
      exact ⟨iff_of_false (by simp [hs]) (fun hc => hnH hc),
        iff_of_true hs ⟨hnH, hM⟩,
        iff_of_false (by simp [hs]) (fun hc => hc.2 hM)⟩
    · have hnH : ¬ ∃ k ∈ highSeverityKeywords, k.toList <:+: (strLower msg).toList :=
        fun hc => hh ((hchar highSeverityKeywords).mpr hc)
      have hnM : ¬ ∃ k ∈ mediumSeverityKeywords, k.toList <:+: (strLower msg).toList :=
        fun hc => hm ((hchar mediumSeverityKeywords).mpr hc)
      have hs : (mkFlag rule msg snippet).severity = FlagSeverity.low := by
        simp [mkFlag, determineSeverity, hh, hm]
      exact ⟨iff_of_false (by simp [hs]) (fun hc => hnH hc),
        iff_of_false (by simp [hs]) (fun hc => hnM hc.2),
        iff_of_true hs ⟨hnH, hnM⟩⟩

/-! ## C10: unrecognized operators default to strict greater-than -/

/-- C10: in the numeric-threshold, regex-amount and compound-rule numeric
condition evaluators, an operator string outside the recognized set falls
back to strict greater-than. -/
theorem unrecognized_operator_defaults_to_gt (value threshold : ℚ) (op : String)
    (hop : op ∉ [(">"), ("<"), (">="), ("<="), ("==")]) :
    (NumericRules.evaluateCondition value threshold op = true ↔ value > threshold) ∧
    (RegexRules.evaluateCondition value threshold op = true ↔ value > threshold) ∧
    (CompoundRules.evaluateNumericCondition value threshold op = true ↔ value > threshold) := by
  simp only [List.mem_cons, List.mem_singleton, not_or] at hop
  obtain ⟨h1, h2, h3, h4, h5, _⟩ := hop
  refine ⟨?_, ?_, ?_⟩ <;>
    simp [NumericRules.evaluateCondition, RegexRules.evaluateCondition,
      CompoundRules.evaluateNumericCondition, h1, h2, h3, h4, h5]

/-- Witness for C10 at the concrete unrecognized operator string. -/
theorem unrecognized_operator_defaults_to_gt_witness :
    (NumericRules.evaluateCondition 3 2 ("!=") = true ↔ (3 : ℚ) > 2) ∧
    (RegexRules.evaluateCondition 3 2 ("!=") = true ↔ (3 : ℚ) > 2) ∧
    (CompoundRules.evaluateNumericCondition 3 2 ("!=") = true ↔ (3 : ℚ) > 2) :=
  unrecognized_operator_defaults_to_gt 3 2 ("!=") (by decide)

/-! ## C3: forensic score bounds and formula -/

theorem foldl_add_weights (g : Flag → ℤ) (l : List Flag) (c : ℤ) :
    l.foldl (fun acc f => acc + g f) c = c + (l.map g).sum := by
  induction l generalizing c with
  | nil => simp
  | cons f fs ih => simp [ih, add_assoc]

/-- C3: the forensic score lies between `0` and `max_score`; the empty
flag list scores exactly `max_score`; a non-empty flag list scores
`max_score` minus the summed per-severity weights, floored at `0`. -/
theorem forensic_score_spec (maxScore : ℤ) (weights : FlagSeverity → ℤ)
    (flags : List Flag) (hmax : 0 ≤ maxScore) (hw : ∀ s, 0 ≤ weights s) :
    0 ≤ ScoringService.calculateForensicScore maxScore weights flags ∧
    ScoringService.calculateForensicScore maxScore weights flags ≤ maxScore ∧
    (flags = [] → ScoringService.calculateForensicScore maxScore weights flags = maxScore) ∧
    (flags ≠ [] → ScoringService.calculateForensicScore maxScore weights flags =
      max 0 (maxScore - (flags.map (fun f => weights f.severity)).sum)) := by
  unfold ScoringService.calculateForensicScore
  by_cases hempty : flags = []
  · simp [hempty, hmax]
  · have hne : flags.isEmpty = false := by
      simpa [List.isEmpty_iff] using hempty
    have hsum : 0 ≤ (flags.map (fun f => weights f.severity)).sum := by
      apply List.sum_nonneg
      intro x hx
      obtain ⟨f, _, rfl⟩ := List.mem_map.mp hx
      exact hw f.severity
    refine ⟨?_, ?_, fun habs => absurd habs hempty, fun _ => ?_⟩
    · simp [hne, foldl_add_weights]
    · simp only [hne, Bool.false_eq_true, if_false, foldl_add_weights, zero_add]
      exact max_le hmax (by omega)
    · simp [hne, foldl_add_weights]

/-- Witness for C3 at the default configuration (`max_score = 100`,
weights high 20 / medium 10 / low 5) and a singleton flag list. -/
theorem forensic_score_spec_witness :
    0 ≤ ScoringService.calculateForensicScore 100 ScoringService.defaultSeverityWeights
      [mkFlag ("r") ("warning") ("s")] ∧
    ScoringService.calculateForensicScore 100 ScoringService.defaultSeverityWeights
      [mkFlag ("r") ("warning") ("s")] ≤ 100 ∧
    ([mkFlag ("r") ("warning") ("s")] = ([] : List Flag) →
      ScoringService.calculateForensicScore 100 ScoringService.defaultSeverityWeights
        [mkFlag ("r") ("warning") ("s")] = 100) ∧
    ([mkFlag ("r") ("warning") ("s")] ≠ ([] : List Flag) →
      ScoringService.calculateForensicScore 100 ScoringService.defaultSeverityWeights
        [mkFlag ("r") ("warning") ("s")] =
      max 0 (100 - (([mkFlag ("r") ("warning") ("s")]).map
        (fun f => ScoringService.defaultSeverityWeights f.severity)).sum)) :=
  forensic_score_spec 100 ScoringService.defaultSeverityWeights
    [mkFlag ("r") ("warning") ("s")] (by decide) (by intro s; cases s <;> decide)

/-! ## C4: zero denominator in calculated-percentage rules -/

/-- C4: whenever the first match of the denominator pattern parses to `0`,
the calculated-percentage evaluator produces no flag (and, being a total
function, raises no error). -/
theorem calculated_percentage_zero_denominator_safe (engine : RegexEngine)
    (rule : Rule) (text : String)
    (hden : ∀ dp m, rule.denominatorPattern = some dp →
      engine.search dp text = some m → parsedGroup m = some 0) :
    NumericRules.checkCalculatedPercentage engine rule text = [] := by
  unfold NumericRules.checkCalculatedPercentage
  split
  case h_2 => rfl
  case h_1 np dp threshold hnp hdp hthr =>
    split
    case isTrue => rfl
    case isFalse =>
      dsimp only
      split
      · rfl
      rename_i nm hsn
      split
      · rfl
      rename_i ng hg
      split
      · rfl
      rename_i numerator hpf
      split
      · rfl
      rename_i dm hsd
      split
      · rfl
      rename_i dg hgd
      split
      · rfl
      rename_i denominator hpd
      have hzero : denominator = 0 := by
        have hpg := hden dp dm hdp hsd
        simp only [parsedGroup, hgd, hpd, Option.some.injEq] at hpg
        exact hpg
      simp [hzero]

/-- Witness for C4: a document whose denominator capture is the string
`0`. -/
theorem calculated_percentage_zero_denominator_safe_witness :
    NumericRules.checkCalculatedPercentage
      (engineOfList [(("NUM"), MatchData.mk 0 3 (some ("10"))),
        (("DEN"), MatchData.mk 5 8 (some ("0")))])
      { name := ("origination_fee_ratio"), ruleType := RuleType.calculatedPercentage,
        message := ("m"), numeratorPattern := some ("NUM"),
        denominatorPattern := some ("DEN"), threshold := some 1 }
      ("doc") = [] := by
  apply calculated_percentage_zero_denominator_safe
  intro dp m hdp hm
  have hdp0 : dp = ("DEN") := by
    injection hdp with hdp
    exact hdp.symm
  subst hdp0
  have hm0 : m = MatchData.mk 5 8 (some ("0")) := by
    have : (engineOfList [(("NUM"), MatchData.mk 0 3 (some ("10"))),
        (("DEN"), MatchData.mk 5 8 (some ("0")))]).search ("DEN") ("doc") =
        some (MatchData.mk 5 8 (some ("0"))) := by decide
    rw [this] at hm
    exact (Option.some_injective _ hm).symm
  subst hm0
  have hpd : parseDecimal ("0") = some (1, 0, 0) := by decide
  rw [parsedGroup]
  show parseFloat (stripCommas ("0")) = some 0
  have hsc : stripCommas ("0") = ("0") := by decide
  rw [hsc, parseFloat, hpd]
  norm_num

/-! ## C5: strict greater-than at the threshold boundary -/

theorem evaluateCondition_gt (v t : ℚ) :
    NumericRules.evaluateCondition v t (">") = decide (v > t) := by
  simp [NumericRules.evaluateCondition]

/-- C5: for a `numeric_threshold` rule with operator `>` and threshold
`5000`, a captured value of exactly `5000` does not flag, `5000.01`
flags, and `4999.99` does not: the comparison is strict. -/
theorem numeric_threshold_strict_gt_boundary (engine : RegexEngine) (rule : Rule)
    (text : String) (p : String) (m : MatchData)
    (hp : rule.pattern = some p) (hpne : p.isEmpty = false)
    (hthr : rule.threshold = some 5000) (hop : rule.operator = some (">"))
    (hm : engine.finditer p text = [m]) :
    (m.group1 = some ("5000") →
      NumericRules.checkNumericThreshold engine rule text = []) ∧
    (m.group1 = some ("5000.01") →
      (NumericRules.checkNumericThreshold engine rule text).length = 1) ∧
    (m.group1 = some ("4999.99") →
      NumericRules.checkNumericThreshold engine rule text = []) := by
  have hbase : NumericRules.checkNumericThreshold engine rule text =
      [m].filterMap (fun mm =>
        match mm.group1 with
        | none => none
        | some g =>
          let valueStr := stripCommas g
          match parseFloat valueStr with
          | none => none
          | some value =>
            if NumericRules.evaluateCondition value 5000 (opOrGt rule.operator) then
              some (mkFlag rule.name
                (formatStrArg (formatNumArg rule.message ("value") (ratToString value))
                  ("value_str") valueStr)
                (extractSnippet text mm.start mm.stop))
            else none) := by
    unfold NumericRules.checkNumericThreshold
    rw [hp, hthr]
    simp only [hpne, Bool.false_eq_true, if_false, hm]
  have hgt : opOrGt rule.operator = (">") := by rw [hop]; decide
  refine ⟨fun hg => ?_, fun hg => ?_, fun hg => ?_⟩
  · have hpd : parseDecimal ("5000") = some (1, 5000, 0) := by decide
    have hsc : stripCommas ("5000") = ("5000") := by decide
    have hpf : parseFloat (stripCommas ("5000")) = some 5000 := by
      rw [hsc, parseFloat, hpd]; norm_num
    have hcond : NumericRules.evaluateCondition 5000 5000 (opOrGt rule.operator) = false := by
      rw [hgt, evaluateCondition_gt, decide_eq_false_iff_not]
      norm_num
    rw [hbase]
    simp [List.filterMap, hg, hpf, hcond]
  · have hpd : parseDecimal ("5000.01") = some (1, 500001, 2) := by decide
    have hsc : stripCommas ("5000.01") = ("5000.01") := by decide
    have hpf : parseFloat (stripCommas ("5000.01")) = some (500001 / 100 : ℚ) := by
      rw [hsc, parseFloat, hpd]; norm_num
    have hcond : NumericRules.evaluateCondition (500001 / 100 : ℚ) 5000
        (opOrGt rule.operator) = true := by
      rw [hgt, evaluateCondition_gt, decide_eq_true_eq]
      norm_num
    rw [hbase]
    simp [List.filterMap, hg, hpf, hcond]
  · have hpd : parseDecimal ("4999.99") = some (1, 499999, 2) := by decide
    have hsc : stripCommas ("4999.99") = ("4999.99") := by decide
    have hpf : parseFloat (stripCommas ("4999.99")) = some (499999 / 100 : ℚ) := by
      rw [hsc, parseFloat, hpd]; norm_num
    have hcond : NumericRules.evaluateCondition (499999 / 100 : ℚ) 5000
        (opOrGt rule.operator) = false := by
      rw [hgt, evaluateCondition_gt, decide_eq_false_iff_not]
      norm_num
    rw [hbase]
    simp [List.filterMap, hg, hpf, hcond]

/-- Witness for C5: three one-match documents capturing `5000`,
`5000.01` and `4999.99`. -/
theorem numeric_threshold_strict_gt_boundary_witness :
    (NumericRules.checkNumericThreshold
      (engineOfList [(("P"), MatchData.mk 0 4 (some ("5000")))])
      { name := ("fee_cap"), ruleType := RuleType.numericThreshold, message := ("m"),
        pattern := some ("P"), threshold := some 5000, operator := some (">") }
      ("doc") = []) ∧
    ((NumericRules.checkNumericThreshold
      (engineOfList [(("P"), MatchData.mk 0 7 (some ("5000.01")))])
      { name := ("fee_cap"), ruleType := RuleType.numericThreshold, message := ("m"),
        pattern := some ("P"), threshold := some 5000, operator := some (">") }
      ("doc")).length = 1) ∧
    (NumericRules.checkNumericThreshold
      (engineOfList [(("P"), MatchData.mk 0 7 (some ("4999.99")))])
      { name := ("fee_cap"), ruleType := RuleType.numericThreshold, message := ("m"),
        pattern := some ("P"), threshold := some 5000, operator := some (">") }
      ("doc")).length = 0 := by
  refine ⟨?_, ?_, ?_⟩
  · exact (numeric_threshold_strict_gt_boundary _ _ _ ("P") (MatchData.mk 0 4 (some ("5000")))
      rfl (by decide) rfl rfl (by decide)).1 rfl
  · exact (numeric_threshold_strict_gt_boundary _ _ _ ("P")
      (MatchData.mk 0 7 (some ("5000.01"))) rfl (by decide) rfl rfl (by decide)).2.1 rfl
  · rw [(numeric_threshold_strict_gt_boundary _ _ _ ("P")
      (MatchData.mk 0 7 (some ("4999.99"))) rfl (by decide) rfl rfl (by decide)).2.2 rfl]
    rfl

/-! ## C8: the zero-closing-costs broken-promise floor -/

/-- Counterexample to C8: a detected closing-costs amount of `$200.00` —
at or below the claimed `$500` floor — does produce a broken-promise flag,
because the source's floor is `100`, not `500`. -/
theorem zero_closing_costs_counterexample :
    parseFloat (stripCommas ("200.00")) = some 200 ∧ (200 : ℚ) ≤ 500 ∧
    (ContextRules.checkBrokenPromise
      (engineOfList [(ContextRules.zeroClosingCostsPattern,
        MatchData.mk 0 30 (some ("200.00")))])
      { name := ("zero_closing_costs_broken_promise"),
        ruleType := RuleType.contextComparison, message := ("m"),
        comparisonType := ("broken_promise"), promiseType := ("zero_closing_costs") }
      ("doc") { promisedZeroClosingCosts := true }).length = 1 := by
  have hpd : parseDecimal ("200.00") = some (1, 20000, 2) := by decide
  have hsc : stripCommas ("200.00") = ("200.00") := by decide
  have hpf : parseFloat (stripCommas ("200.00")) = some 200 := by
    rw [hsc, parseFloat, hpd]; norm_num
  refine ⟨hpf, by norm_num, ?_⟩
  have hsearch : (engineOfList [(ContextRules.zeroClosingCostsPattern,
      MatchData.mk 0 30 (some ("200.00")))]).search
      ContextRules.zeroClosingCostsPattern ("doc") =
      some (MatchData.mk 0 30 (some ("200.00"))) := by decide
  simp only [ContextRules.checkBrokenPromise, ContextRules.checkZeroClosingCostsPromise,
    hsearch, hpf]
  norm_num

/-- C8 amended: the broken-promise evaluator for a promised-zero-closing-
costs context flags exactly when the detected closing-costs amount exceeds
the absolute floor of `$100` (not `$500`); amounts at or below `$100`
produce no flag. -/
theorem zero_closing_costs_floor_is_100 (engine : RegexEngine) (rule : Rule)
    (text : String) (ctx : UserContext) (m : MatchData) (a : ℚ)
    (hpt : rule.promiseType = ("zero_closing_costs"))
    (hctx : ctx.promisedZeroClosingCosts = true)
    (hm : engine.search ContextRules.zeroClosingCostsPattern text = some m)
    (ha : parsedGroup m = some a) :
    ContextRules.checkBrokenPromise engine rule text ctx ≠ [] ↔ a > 100 := by
  cases hg : m.group1 with
  | none => simp [parsedGroup, hg] at ha
  | some g =>
    have hpf : parseFloat (stripCommas g) = some a := by
      simpa [parsedGroup, hg] using ha
    simp only [ContextRules.checkBrokenPromise, hpt, hctx,
      ContextRules.checkZeroClosingCostsPromise, hm, hg, hpf]
    by_cases hgt : a > 100
    · simp [hgt]
    · simp [hgt]

/-- Witness for the amended C8: a `$150.00` charge (above `$100`) flags. -/
theorem zero_closing_costs_floor_is_100_witness :
    ContextRules.checkBrokenPromise
      (engineOfList [(ContextRules.zeroClosingCostsPattern,
        MatchData.mk 0 30 (some ("150.00")))])
      { name := ("zero_closing_costs_broken_promise"),
        ruleType := RuleType.contextComparison, message := ("m"),
        comparisonType := ("broken_promise"), promiseType := ("zero_closing_costs") }
      ("doc") { promisedZeroClosingCosts := true } ≠ [] := by
  have hpd : parseDecimal ("150.00") = some (1, 15000, 2) := by decide
  have hsc : stripCommas ("150.00") = ("150.00") := by decide
  refine (zero_closing_costs_floor_is_100 _ _ ("doc") _
    (MatchData.mk 0 30 (some ("150.00"))) 150 rfl rfl (by decide) ?_).mpr (by norm_num)
  show parseFloat (stripCommas ("150.00")) = some 150
  rw [hsc, parseFloat, hpd]
  norm_num

/-! ## C6: compound-rule condition semantics -/

theorem conditionStep_results (engine : RegexEngine) (text : String) :
    ∀ (cs : List Condition) (s : List Bool × Option (Nat × Nat)),
      (cs.foldl (CompoundRules.conditionStep engine text) s).1 =
        s.1 ++ cs.map (fun c => (CompoundRules.evaluateCondition engine c text).1) := by
  intro cs
  induction cs with
  | nil => intro s; simp
  | cons c rest ih =>
    intro s
    rw [List.foldl_cons, ih]
    simp [CompoundRules.conditionStep]

/-- C6: every sub-condition of a compound rule is evaluated — in
particular a `numeric_threshold` sub-condition whose pattern finds no
match counts as not satisfied without affecting its siblings — the rule
flags according to `AND` (all) or `OR` (any) logic over the evaluated
conditions, and at most one flag is emitted. -/
theorem compound_rule_conditions_spec (engine : RegexEngine) (rule : Rule)
    (text : String) (hconds : rule.conditions ≠ []) :
    (∀ c ∈ rule.conditions, c.condType = ("numeric_threshold") →
      engine.search c.pattern text = none →
      (CompoundRules.evaluateCondition engine c text).1 = false) ∧
    (CompoundRules.processRule engine rule text ≠ [] ↔
      (if strUpper rule.logic = ("AND")
       then ∀ c ∈ rule.conditions, (CompoundRules.evaluateCondition engine c text).1 = true
       else ∃ c ∈ rule.conditions,
         (CompoundRules.evaluateCondition engine c text).1 = true)) ∧
    (CompoundRules.processRule engine rule text).length ≤ 1 := by
  have hne : rule.conditions.isEmpty = false := by
    simpa [List.isEmpty_iff] using hconds
  have hres : (rule.conditions.foldl (CompoundRules.conditionStep engine text)
      ([], none)).1 =
      rule.conditions.map (fun c => (CompoundRules.evaluateCondition engine c text).1) := by
    simpa using conditionStep_results engine text rule.conditions ([], none)
  refine ⟨?_, ?_, ?_⟩
  · intro c hc hty hnone
    simp [CompoundRules.evaluateCondition, hty, CompoundRules.checkConditionNumeric, hnone]
  · unfold CompoundRules.processRule
    simp only [hne, Bool.false_eq_true, if_false, hres]
    by_cases hAND : strUpper rule.logic = ("AND")
    · by_cases hall : (rule.conditions.map
          (fun c => (CompoundRules.evaluateCondition engine c text).1)).all id = true
      · have hforall : ∀ c ∈ rule.conditions,
            (CompoundRules.evaluateCondition engine c text).1 = true := by
          simpa [List.all_eq_true] using hall
        exact iff_of_true (by simp [hAND, hall]) (by rw [if_pos hAND]; exact hforall)
      · have hnforall : ¬ ∀ c ∈ rule.conditions,
            (CompoundRules.evaluateCondition engine c text).1 = true := by
          simpa [List.all_eq_true] using hall
        exact iff_of_false (by simp [hAND, hall]) (by rw [if_pos hAND]; exact hnforall)
    · by_cases hany : (rule.conditions.map
          (fun c => (CompoundRules.evaluateCondition engine c text).1)).any id = true
      · have hexists : ∃ c ∈ rule.conditions,
            (CompoundRules.evaluateCondition engine c text).1 = true := by
          simpa [List.any_eq_true] using hany
        exact iff_of_true (by simp [hAND, hany]) (by rw [if_neg hAND]; exact hexists)
      · have hnexists : ¬ ∃ c ∈ rule.conditions,
            (CompoundRules.evaluateCondition engine c text).1 = true := by
          simpa [List.any_eq_true] using hany
        exact iff_of_false (by simp [hAND, hany]) (by rw [if_neg hAND]; exact hnexists)
  · unfold CompoundRules.processRule
    have hlen : ∀ (b : Bool) (x : Flag), (if b = true then [x] else []).length ≤ 1 := by
      intro b x
      cases b <;> simp
    by_cases hempty : rule.conditions.isEmpty = true
    · simp [hempty]
    · simp only [hempty, Bool.false_eq_true, if_false]
      exact hlen _ _

/-- Witness for C6: one unmatched numeric condition beside one satisfied
presence condition under `OR` logic. -/
theorem compound_rule_conditions_spec_witness :
    ((∀ c ∈ [Condition.mk ("numeric_threshold") ("NOMATCH") 10 (">"),
        Condition.mk ("regex_presence") ("HIT") 0 (">")],
      c.condType = ("numeric_threshold") →
      (engineOfList [(("HIT"), MatchData.mk 2 5 none)]).search c.pattern ("doc") = none →
      (CompoundRules.evaluateCondition
        (engineOfList [(("HIT"), MatchData.mk 2 5 none)]) c ("doc")).1 = false) ∧
    (CompoundRules.processRule (engineOfList [(("HIT"), MatchData.mk 2 5 none)])
      { name := ("combo"), ruleType := RuleType.compoundRule, message := ("m"),
        conditions := [Condition.mk ("numeric_threshold") ("NOMATCH") 10 (">"),
          Condition.mk ("regex_presence") ("HIT") 0 (">")],
        logic := ("OR") } ("doc") ≠ [] ↔
      (if strUpper ("OR") = ("AND")
       then ∀ c ∈ [Condition.mk ("numeric_threshold") ("NOMATCH") 10 (">"),
          Condition.mk ("regex_presence") ("HIT") 0 (">")],
         (CompoundRules.evaluateCondition
           (engineOfList [(("HIT"), MatchData.mk 2 5 none)]) c ("doc")).1 = true
       else ∃ c ∈ [Condition.mk ("numeric_threshold") ("NOMATCH") 10 (">"),
          Condition.mk ("regex_presence") ("HIT") 0 (">")],
         (CompoundRules.evaluateCondition
           (engineOfList [(("HIT"), MatchData.mk 2 5 none)]) c ("doc")).1 = true)) ∧
    (CompoundRules.processRule (engineOfList [(("HIT"), MatchData.mk 2 5 none)])
      { name := ("combo"), ruleType := RuleType.compoundRule, message := ("m"),
        conditions := [Condition.mk ("numeric_threshold") ("NOMATCH") 10 (">"),
          Condition.mk ("regex_presence") ("HIT") 0 (">")],
        logic := ("OR") } ("doc")).length ≤ 1) :=
  compound_rule_conditions_spec (engineOfList [(("HIT"), MatchData.mk 2 5 none)])
    { name := ("combo"), ruleType := RuleType.compoundRule, message := ("m"),
      conditions := [Condition.mk ("numeric_threshold") ("NOMATCH") 10 (">"),
        Condition.mk ("regex_presence") ("HIT") 0 (">")],
      logic := ("OR") } ("doc") (List.cons_ne_nil _ _)

/-! ## C7: fuzzy cross-reference keyword matching (legacy engine) -/

/-- The `cross_reference_pattern` rule of the shared-keyword scenario. -/
def builderCaptiveRule : Rule :=
  { name := ("builder_captive_services"), ruleType := RuleType.crossReferencePattern,
    message := ("cross-ref"), primaryPattern := ("SELLER"),
    secondaryPatterns := [SecondaryPattern.mk ("LENDER") ("lender")], fuzzyMatch := true }

/-- C7: under fuzzy matching a secondary pattern matches iff some derived
keyword of the primary value is a substring of the secondary value, where
the keywords are the all-caps tokens of length ≥ 2 of the upper-cased
primary (here the scenario keywords `ABC`, `BUILDER`, `CORPORATION`); the
`ABC MORTGAGE SOLUTIONS` lender shares `ABC` and flags, while
`UNRELATED BANK` does not flag. -/
theorem cross_reference_fuzzy_spec (engine : RegexEngine) (rule : Rule)
    (text : String) (pm sm : MatchData) (gp gs : String) (sp : SecondaryPattern)
    (hfuzzy : rule.fuzzyMatch = true)
    (hsec : rule.secondaryPatterns = [sp])
    (hpm : engine.search rule.primaryPattern text = some pm)
    (hg : pm.group1 = some gp)
    (hsm : engine.search sp.pattern text = some sm)
    (hh : sm.group1 = some gs) :
    (∃ flags, Engine.checkCrossReferencePattern engine rule text = Except.ok flags ∧
      (flags ≠ [] ↔ ∃ k ∈ Engine.deriveKeywords (strUpper (strStrip gp)),
        k.toList <:+: (strUpper (strStrip gs)).toList)) ∧
    Engine.deriveKeywords ("ABC BUILDER CORPORATION") =
      [("ABC"), ("BUILDER"), ("CORPORATION")] ∧
    (Engine.checkCrossReferencePattern
      (engineOfList [(("SELLER"), MatchData.mk 0 3 (some ("ABC BUILDER CORPORATION"))),
        (("LENDER"), MatchData.mk 4 7 (some ("ABC MORTGAGE SOLUTIONS")))])
      builderCaptiveRule ("doc")).toOption.map List.length = some 1 ∧
    (Engine.checkCrossReferencePattern
      (engineOfList [(("SELLER"), MatchData.mk 0 3 (some ("ABC BUILDER CORPORATION"))),
        (("LENDER"), MatchData.mk 4 7 (some ("UNRELATED BANK")))])
      builderCaptiveRule ("doc")).toOption.map List.length = some 0 := by
  refine ⟨?_, by decide, by decide, by decide⟩
  simp only [Engine.checkCrossReferencePattern, hpm, hg, hsec,
    Engine.crossrefSecondaries, hsm, hh, hfuzzy, if_pos]
  by_cases hmatch : (Engine.deriveKeywords (strUpper (strStrip gp))).any
      (fun k => strContains (strUpper (strStrip gs)) k) = true
  · have hex : ∃ k ∈ Engine.deriveKeywords (strUpper (strStrip gp)),
        k.toList <:+: (strUpper (strStrip gs)).toList := by
      simpa [List.any_eq_true, strContains_iff] using hmatch
    simp only [hmatch, if_pos]
    exact ⟨_, rfl, iff_of_true (List.cons_ne_nil _ _) hex⟩
  · have hnex : ¬ ∃ k ∈ Engine.deriveKeywords (strUpper (strStrip gp)),
        k.toList <:+: (strUpper (strStrip gs)).toList := by
      simpa [List.any_eq_true, strContains_iff] using hmatch
    simp only [hmatch]
    refine ⟨[], ?_, iff_of_false (by simp) hnex⟩
    simp

/-- Witness for C7 at the shared-keyword scenario inputs. -/
theorem cross_reference_fuzzy_spec_witness :
    (∃ flags, Engine.checkCrossReferencePattern
        (engineOfList [(("SELLER"), MatchData.mk 0 3 (some ("ABC BUILDER CORPORATION"))),
          (("LENDER"), MatchData.mk 4 7 (some ("ABC MORTGAGE SOLUTIONS")))])
        builderCaptiveRule ("doc") = Except.ok flags ∧
      (flags ≠ [] ↔ ∃ k ∈ Engine.deriveKeywords
          (strUpper (strStrip ("ABC BUILDER CORPORATION"))),
        k.toList <:+: (strUpper (strStrip ("ABC MORTGAGE SOLUTIONS"))).toList)) ∧
    Engine.deriveKeywords ("ABC BUILDER CORPORATION") =
      [("ABC"), ("BUILDER"), ("CORPORATION")] ∧
    (Engine.checkCrossReferencePattern
      (engineOfList [(("SELLER"), MatchData.mk 0 3 (some ("ABC BUILDER CORPORATION"))),
        (("LENDER"), MatchData.mk 4 7 (some ("ABC MORTGAGE SOLUTIONS")))])
      builderCaptiveRule ("doc")).toOption.map List.length = some 1 ∧
    (Engine.checkCrossReferencePattern
      (engineOfList [(("SELLER"), MatchData.mk 0 3 (some ("ABC BUILDER CORPORATION"))),
        (("LENDER"), MatchData.mk 4 7 (some ("UNRELATED BANK")))])
      builderCaptiveRule ("doc")).toOption.map List.length = some 0 :=
  cross_reference_fuzzy_spec
    (engineOfList [(("SELLER"), MatchData.mk 0 3 (some ("ABC BUILDER CORPORATION"))),
      (("LENDER"), MatchData.mk 4 7 (some ("ABC MORTGAGE SOLUTIONS")))])
    builderCaptiveRule ("doc")
    (MatchData.mk 0 3 (some ("ABC BUILDER CORPORATION")))
    (MatchData.mk 4 7 (some ("ABC MORTGAGE SOLUTIONS")))
    ("ABC BUILDER CORPORATION") ("ABC MORTGAGE SOLUTIONS")
    (SecondaryPattern.mk ("LENDER") ("lender"))
    rfl rfl (by decide) rfl (by decide) rfl

/-! ## C2: evaluator failures are isolated by the orchestrator loop -/

/-- C2: the analyze loop always returns a flag list by construction, and a
rule whose evaluator raises is skipped: the result is the same as if the
failing rule were absent, so the remaining rules are unaffected. -/
theorem analyze_isolates_evaluator_errors
    (ev : Rule → String → Option UserContext → Except String (List Flag))
    (pre post : List Rule) (r : Rule) (text : String) (ctx : Option UserContext)
    (e : String) (herr : ev r text ctx = Except.error e) :
    RuleEngineService.analyzeCore ev (pre ++ r :: post) text ctx =
      RuleEngineService.analyzeCore ev (pre ++ post) text ctx := by
  unfold RuleEngineService.analyzeCore
  rw [List.foldl_append, List.foldl_append, List.foldl_cons]
  have hstep : ∀ s, RuleEngineService.analyzeStep ev text ctx s r = s := by
    intro s
    unfold RuleEngineService.analyzeStep
    split
    · rfl
    · rw [herr]
  rw [hstep]

/-- An evaluator that fails on compound rules and flags everything else;
exercises the orchestrator's error isolation. -/
def failingEvaluator : Rule → String → Option UserContext → Except String (List Flag) :=
  fun r _ _ =>
    match r.ruleType with
    | RuleType.compoundRule => Except.error ("boom")
    | _ => Except.ok [mkFlag r.name r.message ("snippet")]

/-- Witness for C2: a failing middle rule drops out of the batch. -/
theorem analyze_isolates_evaluator_errors_witness :
    RuleEngineService.analyzeCore failingEvaluator
      ([{ name := ("a"), ruleType := RuleType.regexPresence, message := ("m1") }] ++
        { name := ("bad"), ruleType := RuleType.compoundRule, message := ("m2") } ::
        [{ name := ("b"), ruleType := RuleType.regexAbsence, message := ("m3") }])
      ("doc") none =
    RuleEngineService.analyzeCore failingEvaluator
      ([{ name := ("a"), ruleType := RuleType.regexPresence, message := ("m1") }] ++
        [{ name := ("b"), ruleType := RuleType.regexAbsence, message := ("m3") }])
      ("doc") none :=
  analyze_isolates_evaluator_errors failingEvaluator
    [{ name := ("a"), ruleType := RuleType.regexPresence, message := ("m1") }]
    [{ name := ("b"), ruleType := RuleType.regexAbsence, message := ("m3") }]
    { name := ("bad"), ruleType := RuleType.compoundRule, message := ("m2") }
    ("doc") none ("boom") rfl

/-! ## C1: at most one flag per rule name -/

theorem mkFlag_rule (a b c : String) : (mkFlag a b c).rule = a := rfl

theorem mem_checkNumericThreshold_name (engine : RegexEngine) (rule : Rule)
    (text : String) (f : Flag)
    (hf : f ∈ NumericRules.checkNumericThreshold engine rule text) :
    f.rule = rule.name := by
  unfold NumericRules.checkNumericThreshold at hf
  split at hf
  · split at hf
    · simp at hf
    · rw [List.mem_filterMap] at hf
      obtain ⟨m, _, hval⟩ := hf
      try dsimp only at hval
      repeat' (first | split at hval | (dsimp only at hval; split at hval))
      all_goals (first
        | (exact Option.noConfusion hval)
        | (injection hval with hval; subst hval; rfl))
  · simp at hf

theorem mem_checkCalculatedPercentage_name (engine : RegexEngine) (rule : Rule)
    (text : String) (f : Flag)
    (hf : f ∈ NumericRules.checkCalculatedPercentage engine rule text) :
    f.rule = rule.name := by
  unfold NumericRules.checkCalculatedPercentage at hf
  try dsimp only at hf
  repeat' (first | split at hf | (dsimp only at hf; split at hf))
  all_goals simp_all [mkFlag]

theorem mem_checkRegexPresence_name (engine : RegexEngine) (rule : Rule)
    (text : String) (f : Flag)
    (hf : f ∈ RegexRules.checkRegexPresence engine rule text) :
    f.rule = rule.name := by
  unfold RegexRules.checkRegexPresence at hf
  try dsimp only at hf
  repeat' (first | split at hf | (dsimp only at hf; split at hf))
  all_goals simp_all [mkFlag]

theorem mem_checkRegexAbsence_name (engine : RegexEngine) (rule : Rule)
    (text : String) (f : Flag)
    (hf : f ∈ RegexRules.checkRegexAbsence engine rule text) :
    f.rule = rule.name := by
  unfold RegexRules.checkRegexAbsence at hf
  try dsimp only at hf
  repeat' (first | split at hf | (dsimp only at hf; split at hf))
  all_goals simp_all [mkFlag]

theorem mem_checkRegexAmount_name (engine : RegexEngine) (rule : Rule)
    (text : String) (f : Flag)
    (hf : f ∈ RegexRules.checkRegexAmount engine rule text) :
    f.rule = rule.name := by
  unfold RegexRules.checkRegexAmount at hf
  split at hf
  · split at hf
    · simp at hf
    · rw [List.mem_filterMap] at hf
      obtain ⟨m, _, hval⟩ := hf
      try dsimp only at hval
      repeat' (first | split at hval | (dsimp only at hval; split at hval))
      all_goals (first
        | (exact Option.noConfusion hval)
        | (injection hval with hval; subst hval; rfl))
  · simp at hf

theorem mem_compoundRule_name (engine : RegexEngine) (rule : Rule)
    (text : String) (f : Flag)
    (hf : f ∈ CompoundRules.processRule engine rule text) :
    f.rule = rule.name := by
  unfold CompoundRules.processRule at hf
  try dsimp only at hf
  repeat' (first | split at hf | (dsimp only at hf; split at hf))
  all_goals simp_all [mkFlag]

theorem mem_crossReference_name (engine : RegexEngine) (rule : Rule)
    (text : String) (f : Flag)
    (hf : f ∈ CrossReferenceRules.processRule engine rule text) :
    f.rule = rule.name := by
  unfold CrossReferenceRules.processRule at hf
  try dsimp only at hf
  repeat' (first | split at hf | (dsimp only at hf; split at hf))
  all_goals simp_all [mkFlag]

theorem mem_contextRules_name (engine : RegexEngine) (rule : Rule)
    (text : String) (ctx : Option UserContext) (f : Flag)
    (hf : f ∈ ContextRules.processRule engine rule text ctx) :
    f.rule = rule.name := by
  unfold ContextRules.processRule ContextRules.checkPriceMismatch
    ContextRules.checkLoanAmountMismatch ContextRules.checkBrokenPromise
    ContextRules.checkZeroClosingCostsPromise ContextRules.checkTitleFeesPromise
    ContextRules.checkEscrowFeesPromise ContextRules.checkUnexpectedCharge at hf
  try dsimp only at hf
  repeat' (first | split at hf | (dsimp only at hf; split at hf))
  all_goals simp_all [mkFlag]

theorem processRule_name (engine : RegexEngine) (r : Rule) (text : String)
    (ctx : Option UserContext) (f : Flag)
    (hf : f ∈ RuleEngineService.processRule engine r text ctx) : f.rule = r.name := by
  unfold RuleEngineService.processRule at hf
  cases hrt : r.ruleType <;> rw [hrt] at hf
  case numericThreshold => exact mem_checkNumericThreshold_name engine r text f hf
  case calculatedPercentage => exact mem_checkCalculatedPercentage_name engine r text f hf
  case regexPresence => exact mem_checkRegexPresence_name engine r text f hf
  case regexAbsence => exact mem_checkRegexAbsence_name engine r text f hf
  case regexAmount => exact mem_checkRegexAmount_name engine r text f hf
  case compoundRule => exact mem_compoundRule_name engine r text f hf
  case crossReferencePattern => exact mem_crossReference_name engine r text f hf
  case contextComparison => exact mem_contextRules_name engine r text ctx f hf

/-- The loop invariant of `analyze_text`: flag rule names stay distinct
and every emitted name is recorded in the `flagged_rules` set. -/
theorem analyzeLoop_nodup
    (ev : Rule → String → Option UserContext → Except String (List Flag))
    (text : String) (ctx : Option UserContext)
    (hev : ∀ r l f, ev r text ctx = Except.ok l → f ∈ l → f.rule = r.name) :
    ∀ (rules : List Rule) (s : List Flag × List String),
      ((s.1.map Flag.rule).Nodup ∧ ∀ f ∈ s.1, f.rule ∈ s.2) →
      (((rules.foldl (RuleEngineService.analyzeStep ev text ctx) s).1.map Flag.rule).Nodup ∧
        ∀ f ∈ (rules.foldl (RuleEngineService.analyzeStep ev text ctx) s).1,
          f.rule ∈ (rules.foldl (RuleEngineService.analyzeStep ev text ctx) s).2) := by
  intro rules
  induction rules with
  | nil => intro s hs; simpa using hs
  | cons r rest ih =>
    intro s hs
    rw [List.foldl_cons]
    apply ih
    unfold RuleEngineService.analyzeStep
    by_cases hcont : s.2.contains r.name = true
    · simp only [hcont, if_true]
      exact hs
    · rw [if_neg hcont]
      split
      · exact hs
      · exact hs
      · rename_i fl rest heq
        obtain ⟨hnodup, hmem⟩ := hs
        have hflname : fl.rule = r.name :=
          hev r (fl :: rest) fl heq (List.mem_cons_self _ _)
        have hnotin : r.name ∉ s.1.map Flag.rule := by
          intro hin
          obtain ⟨f, hfmem, hfrule⟩ := List.mem_map.mp hin
          have hns : r.name ∈ s.2 := hfrule ▸ hmem f hfmem
          exact absurd (List.elem_iff.mpr hns) (by simpa using hcont)
        constructor
        · rw [List.map_append, List.nodup_append]
          refine ⟨hnodup, by simp, ?_⟩
          intro a ha hb
          simp only [List.map_cons, List.map_nil, List.mem_singleton] at hb
          subst hb
          exact hnotin (hflname ▸ ha)
        · intro f hf
          rcases List.mem_append.mp hf with hfl | hfr
          · exact List.mem_cons_of_mem _ (hmem f hfl)
          · simp only [List.mem_singleton] at hfr
            subst hfr
            rw [hflname]
            exact List.mem_cons_self _ _

/-- C1: the orchestrator's `analyze_text` never returns two flags with the
same rule name — only the first candidate of a rule is kept and its name
is recorded, so per analysis call at most one flag per rule name appears,
for every text, rule set and optional user context. -/
theorem analyze_at_most_one_flag_per_rule (engine : RegexEngine) (rules : List Rule)
    (text : String) (ctx : Option UserContext) :
    ((RuleEngineService.analyzeText engine rules text ctx).map Flag.rule).Nodup := by
  unfold RuleEngineService.analyzeText RuleEngineService.analyzeCore
  have hev : ∀ (r : Rule) (l : List Flag) (f : Flag),
      Except.ok (RuleEngineService.processRule engine r text ctx) =
        (Except.ok l : Except String (List Flag)) → f ∈ l → f.rule = r.name := by
    intro r l f hok hf
    have hl : RuleEngineService.processRule engine r text ctx = l :=
      Except.ok.inj hok
    exact processRule_name engine r text ctx f (hl ▸ hf)
  exact (analyzeLoop_nodup (fun r t c => Except.ok (RuleEngineService.processRule engine r t c))
    text ctx (fun r l f h1 h2 => hev r l f h1 h2)
    (rules.filter (fun r => r.enabled)) ([], []) (by simp)).1

end CloseGuard
